import Mathlib

set_option autoImplicit false

/-!
Shallow embedding of the gmail/calendar MCP server (`src/main.py`) and
verification of its credential-lifecycle and tool-dispatch logic.

The external collaborators (operating-system environment, file system, the
Google credential library's parsing/refresh, the interactive OAuth flow, and
the Mail/Calendar services) are modelled as explicit inputs (`SysEnv` and the
per-tool parameters); the repository's own control flow is translated
line by line.  I/O actions are recorded in an explicit `Effect` trace.
-/

/-- `SCOPES` in `main.py`: Gmail read-only plus Calendar full access. -/
def SCOPES : List String :=
  ["https://www.googleapis.com/auth/gmail.readonly",
   "https://www.googleapis.com/auth/calendar"]

/-- `ACCOUNTS` in `main.py`: account name to token file path (paths are
represented by their file names). -/
def ACCOUNTS : List (String × String) :=
  [("personal", "token_personal.json"),
   ("school", "token_school.json"),
   ("work", "token_work.json")]

/-- `ENV_TOKENS` in `main.py`: account name to environment variable name. -/
def ENV_TOKENS : List (String × String) :=
  [("personal", "GOOGLE_TOKEN_PERSONAL"),
   ("school", "GOOGLE_TOKEN_SCHOOL"),
   ("work", "GOOGLE_TOKEN_WORK")]

/-- Python `dict.get` over an association list with distinct keys. -/
def lookupStr : List (String × String) → String → Option String
  | [], _ => none
  | (k, v) :: t, a => if k = a then some v else lookupStr t a

/-- The fields of `google.oauth2.credentials.Credentials` that
`get_credentials` consults: `token`, `expired`, `refresh_token`. -/
structure Creds where
  token : Option String
  expired : Bool
  refresh_token : Option String
  deriving DecidableEq, Repr

/-- `creds.valid` in the google-auth library: a token is present and it is
not expired. -/
def Creds.valid (c : Creds) : Bool := c.token.isSome && !c.expired

/-- One observable I/O action performed by `get_credentials`. -/
inductive Effect where
  | readEnv (name : String)
  | statFile (path : String)
  | readFile (path : String)
  | writeFile (path : String)
  | refreshCall
  | interactiveFlow
  deriving DecidableEq, Repr

/-- The exceptions `get_credentials` can raise: `ValueError` for an unknown
account, a refresh failure from `creds.refresh`, the deployed-environment
`RuntimeError`, and a failure of the interactive flow. -/
inductive CredError where
  | unknownAccount (account : String)
  | refreshError
  | tokenUnrecoverable (account : String)
  | flowError
  deriving DecidableEq, Repr

/-- Outcome of `get_credentials`: a credential or a raised error. -/
inductive CredResult where
  | ok (c : Creds)
  | error (e : CredError)
  deriving DecidableEq, Repr

/-- The ambient effectful collaborators of `get_credentials`: `os.environ`,
the file system (contents of a path when it exists), token parsing
(`json.loads` plus `Credentials.from_authorized_user_info` / `_file`),
`creds.refresh` (`none` models a raised refresh error) and the interactive
flow `flow.run_local_server` (`none` models a raised flow error). -/
structure SysEnv where
  envVars : String → Option String
  files : String → Option String
  parse : String → Creds
  refresh : Creds → Option Creds
  flow : Option Creds

/-- Python truthiness of an optional string: `None` and `""` are falsy. -/
def truthyOpt : Option String → Option String
  | some s => if s = "" then none else some s
  | none => none

/-- The file branch of the token load (`elif ACCOUNTS[account].exists(): ...`,
lines 46-47): stat the path, and parse its contents when it exists. -/
def loadFromFile (env : SysEnv) (account : String) (eff : List Effect) :
    Option Creds × List Effect :=
  match lookupStr ACCOUNTS account with
  | some path =>
    match env.files path with
    | some contents =>
      (some (env.parse contents), eff ++ [Effect.statFile path, Effect.readFile path])
    | none => (none, eff ++ [Effect.statFile path])
  | none => (none, eff)

/-- Token load, lines 40-47 of `main.py`: the environment variable, when set
and non-empty, wins over the file. -/
def loadCreds (env : SysEnv) (account : String) : Option Creds × List Effect :=
  match lookupStr ENV_TOKENS account with
  | some v =>
    if v = "" then loadFromFile env account []
    else
      match truthyOpt (env.envVars v) with
      | some s => (some (env.parse s), [Effect.readEnv v])
      | none => loadFromFile env account [Effect.readEnv v]
  | none => loadFromFile env account []

/-- The interactive branch, lines 56-59: run the local-server flow and, on
success, write the fresh token to the account's file. -/
def runFlow (env : SysEnv) (path : String) (eff : List Effect) :
    CredResult × List Effect :=
  match env.flow with
  | some c => (CredResult.ok c, eff ++ [Effect.interactiveFlow, Effect.writeFile path])
  | none => (CredResult.error CredError.flowError, eff ++ [Effect.interactiveFlow])

/-- Lines 53-59: with no usable token, raise in a deployed context (the
account's environment variable is set and non-empty), otherwise run the
interactive flow. -/
def noUsableToken (env : SysEnv) (account path : String) (envVar : Option String)
    (eff : List Effect) : CredResult × List Effect :=
  match envVar with
  | some v =>
    let eff := eff ++ [Effect.readEnv v]
    match truthyOpt (env.envVars v) with
    | some _ => (CredResult.error (CredError.tokenUnrecoverable account), eff)
    | none => runFlow env path eff
  | none => runFlow env path eff

/-- `get_credentials` (lines 33-61 of `main.py`), with its I/O trace. -/
def get_credentials (env : SysEnv) (account : String) : CredResult × List Effect :=
  match lookupStr ACCOUNTS account with
  | none => (CredResult.error (CredError.unknownAccount account), [])
  | some path =>
    match loadCreds env account with
    | (some c, eff) =>
      if c.valid then (CredResult.ok c, eff)
      else if c.expired && c.refresh_token.isSome then
        match env.refresh c with
        | some c2 => (CredResult.ok c2, eff ++ [Effect.refreshCall])
        | none => (CredResult.error CredError.refreshError, eff ++ [Effect.refreshCall])
      else noUsableToken env account path (lookupStr ENV_TOKENS account) eff
    | (none, eff) => noUsableToken env account path (lookupStr ENV_TOKENS account) eff

/-- Python string slice `s[:n]`. -/
def pySlice (s : String) (n : Nat) : String := ⟨s.data.take n⟩

/-- A message-part body (`part["body"]` / `payload["body"]`): the optional
base64url-encoded `data` field. -/
structure PartBody where
  data : Option String
  deriving DecidableEq, Repr

/-- One entry of `payload["parts"]`. -/
structure MsgPart where
  mimeType : Option String
  body : Option PartBody
  deriving DecidableEq, Repr

/-- A Gmail message payload as consulted by `gmail_read_thread`. -/
structure MsgPayload where
  body : Option PartBody
  parts : Option (List MsgPart)
  headers : Option (List (String × String))
  deriving DecidableEq, Repr

/-- Truthy `.get("body", {}).get("data")`: the data string when the body and
a non-empty data field are present. -/
def truthyData (b : Option PartBody) : Option String :=
  match b with
  | some pb => truthyOpt pb.data
  | none => none

/-- The scan over `payload["parts"]` (lines 117-121): the first part whose
MIME type is `text/plain` and whose body carries truthy data is decoded;
otherwise the body stays `""`. -/
def extractFromParts (dec : String → String) : List MsgPart → String
  | [] => ""
  | p :: ps =>
    match (if p.mimeType = some "text/plain" then truthyData p.body else none) with
    | some d => dec d
    | none => extractFromParts dec ps

/-- Body extraction in `gmail_read_thread` (lines 111-121).  `dec` is the
transport decoding applied by the source (`base64.urlsafe_b64decode`
followed by a utf-8 decode with errors ignored), an external library call. -/
def extractBody (dec : String → String) (payload : MsgPayload) : String :=
  match truthyData payload.body with
  | some d => dec d
  | none =>
    match payload.parts with
    | some parts => extractFromParts dec parts
    | none => ""

/-- The `body` value placed in the output of `gmail_read_thread`:
`body[:5000]` (line 129). -/
def messageBody (dec : String → String) (payload : MsgPayload) : String :=
  pySlice (extractBody dec payload) 5000

/-- The Python dict comprehension over a header list followed by `.get`:
the last entry for a name wins. -/
def lastLookup : List (String × String) → String → Option String
  | [], _ => none
  | (a, b) :: t, k =>
    match lastLookup t k with
    | some v => some v
    | none => if a = k then some b else none

/-- A reference returned by the Gmail `list` call: `id` and `threadId`. -/
structure MsgRef where
  id : String
  threadId : String
  deriving DecidableEq, Repr

/-- The metadata detail fetched per message in `gmail_search`:
`payload.headers` (absent payload or headers collapses to the `[]`
defaults of the two `.get` calls) and `snippet`. -/
structure MsgDetail where
  payloadHeaders : Option (List (String × String))
  snippet : Option String
  deriving DecidableEq, Repr

/-- One message of a thread as consumed by `gmail_read_thread`. -/
structure ThreadMsg where
  id : String
  payload : Option MsgPayload
  deriving DecidableEq, Repr

/-- `msg.get("payload", {})`. -/
def emptyPayload : MsgPayload := { body := none, parts := none, headers := none }

/-- Lower-case hexadecimal digit. -/
def hexChar (n : Nat) : Char :=
  if n < 10 then Char.ofNat (48 + n) else Char.ofNat (87 + n)

/-- A `\uXXXX` escape for a code below 0x10000. -/
def uEscape (n : Nat) : String :=
  "\\u" ++ ⟨[hexChar (n / 4096 % 16), hexChar (n / 256 % 16),
             hexChar (n / 16 % 16), hexChar (n % 16)]⟩

/-- Character escaping of `json.dumps` (default `ensure_ascii=True`). -/
def escapeChar (c : Char) : String :=
  if c = '"' then "\\\""
  else if c = '\\' then "\\\\"
  else if c = Char.ofNat 8 then "\\b"
  else if c = Char.ofNat 9 then "\\t"
  else if c = Char.ofNat 10 then "\\n"
  else if c = Char.ofNat 12 then "\\f"
  else if c = Char.ofNat 13 then "\\r"
  else if 32 ≤ c.toNat ∧ c.toNat ≤ 126 then String.singleton c
  else if c.toNat < 65536 then uEscape c.toNat
  else uEscape (55296 + (c.toNat - 65536) / 1024) ++ uEscape (56320 + (c.toNat - 65536) % 1024)

/-- `json.dumps` escaping of a whole string. -/
def jsonEscape (s : String) : String := String.join (s.data.map escapeChar)

/-- A JSON string literal. -/
def jstrLit (s : String) : String := "\"" ++ jsonEscape s ++ "\""

/-- `n` spaces of indentation. -/
def spacesN (n : Nat) : String := ⟨List.replicate n ' '⟩

/-- `json.dumps(fields, indent=2)` rendering of one flat string-valued
object at indentation `ind`. -/
def dumpFlatObj (fields : List (String × String)) (ind : Nat) : String :=
  match fields with
  | [] => "\x7b\x7d"
  | _ =>
    "\x7b\n" ++
    (String.intercalate ",\n"
      (fields.map (fun kv => spacesN (ind + 2) ++ jstrLit kv.1 ++ ": " ++ jstrLit kv.2)) ++
     ("\n" ++ spacesN ind ++ "\x7d"))

/-- `json.dumps(objs, indent=2)` for a list of flat string-valued objects —
the output shape of `gmail_search` and `gmail_read_thread`. -/
def dumpObjList (objs : List (List (String × String))) : String :=
  match objs with
  | [] => "[]"
  | _ =>
    "[\n" ++
    (String.intercalate ",\n" (objs.map (fun o => spacesN 2 ++ dumpFlatObj o 2)) ++ "\n]")

/-- The output record built per message in `gmail_search` (lines 85-95). -/
def searchEntry (detail : String → MsgDetail) (m : MsgRef) : List (String × String) :=
  let d := detail m.id
  let hs := d.payloadHeaders.getD []
  [("id", m.id), ("threadId", m.threadId),
   ("from", (lastLookup hs "From").getD ""),
   ("subject", (lastLookup hs "Subject").getD ""),
   ("date", (lastLookup hs "Date").getD ""),
   ("snippet", d.snippet.getD "")]

/-- `gmail_search` (lines 75-97) given the service's `list` response
(`none` models an absent `messages` key) and the per-id metadata fetch. -/
def gmail_search (listResp : Option (List MsgRef)) (detail : String → MsgDetail) : String :=
  let messages := listResp.getD []
  if messages.isEmpty then "No messages found."
  else dumpObjList (messages.map (searchEntry detail))

/-- The output record built per message in `gmail_read_thread`
(lines 107-130). -/
def readThreadEntry (dec : String → String) (m : ThreadMsg) : List (String × String) :=
  let payload := m.payload.getD emptyPayload
  let hs := payload.headers.getD []
  [("id", m.id),
   ("from", (lastLookup hs "From").getD ""),
   ("to", (lastLookup hs "To").getD ""),
   ("subject", (lastLookup hs "Subject").getD ""),
   ("date", (lastLookup hs "Date").getD ""),
   ("body", messageBody dec payload)]

/-- `gmail_read_thread` (lines 101-132) given the thread's messages. -/
def gmail_read_thread (dec : String → String) (msgs : List ThreadMsg) : String :=
  dumpObjList (msgs.map (readThreadEntry dec))

/-- A Calendar event `start`/`end` value:
`{"date": s, "timeZone": tz}` or `{"dateTime": s, "timeZone": tz}`. -/
structure EventTime where
  date : Option String
  dateTime : Option String
  timeZone : Option String
  deriving DecidableEq, Repr

/-- `{"date": s, "timeZone": tz} if is_all_day else
{"dateTime": s, "timeZone": tz}` (lines 224-225, 262, 265). -/
def timeField (is_all_day : Bool) (s tz : String) : EventTime :=
  if is_all_day then { date := some s, dateTime := none, timeZone := some tz }
  else { date := none, dateTime := some s, timeZone := some tz }

/-- The event dict as touched by the calendar tools; `extra` stands for
every other key of the fetched event, which the code never modifies. -/
structure CalendarEvent where
  summary : Option String
  description : Option String
  location : Option String
  start : Option EventTime
  end_ : Option EventTime
  extra : List (String × String) := []
  deriving DecidableEq, Repr

/-- The event body built by `calendar_create_event` (lines 219-230); the
service `insert` call is external. -/
def calendar_create_event (summary start end_ : String)
    (description location : Option String) (timezone : String) : CalendarEvent :=
  let is_all_day := start.length == 10
  let event : CalendarEvent :=
    { summary := some summary
      description := none
      location := none
      start := some (timeField is_all_day start timezone)
      end_ := some (timeField is_all_day end_ timezone)
      extra := [] }
  let event :=
    match truthyOpt description with
    | some d => { event with description := some d }
    | none => event
  match truthyOpt location with
  | some l => { event with location := some l }
  | none => event

/-- The patch applied by `calendar_update_event` (lines 252-266) to the
event fetched from the service; the `get` and `update` calls are
external. -/
def calendar_update_event (event : CalendarEvent)
    (summary start end_ description location : Option String)
    (timezone : String) : CalendarEvent :=
  let e1 :=
    match truthyOpt summary with
    | some s => { event with summary := some s }
    | none => event
  let e2 :=
    match description with
    | some d => { e1 with description := some d }
    | none => e1
  let e3 :=
    match location with
    | some l => { e2 with location := some l }
    | none => e2
  let e4 :=
    match truthyOpt start with
    | some s => { e3 with start := some (timeField (s.length == 10) s timezone) }
    | none => e3
  match truthyOpt end_ with
  | some s => { e4 with end_ := some (timeField (s.length == 10) s timezone) }
  | none => e4

/-- Every environment-variable name in `ENV_TOKENS` is non-empty. -/
lemma env_name_ne_empty {a v : String} (h : lookupStr ENV_TOKENS a = some v) :
    v ≠ "" := by
  simp only [ENV_TOKENS, lookupStr] at h
  repeat' split at h
  all_goals simp_all
  all_goals (try subst h)
  all_goals decide

/-- Every known account also has an environment-variable name. -/
lemma known_has_env {a p : String} (h : lookupStr ACCOUNTS a = some p) :
    ∃ v, lookupStr ENV_TOKENS a = some v := by
  simp only [ACCOUNTS, lookupStr] at h
  simp only [ENV_TOKENS, lookupStr]
  repeat' split at h
  all_goals simp_all

/-- A set, non-empty environment token short-circuits the load: the parsed
environment value is returned and the file system is untouched. -/
lemma loadCreds_env {env : SysEnv} {a v s : String}
    (hv : lookupStr ENV_TOKENS a = some v)
    (hs : env.envVars v = some s) (hne : s ≠ "") :
    loadCreds env a = (some (env.parse s), [Effect.readEnv v]) := by
  have hvne := env_name_ne_empty hv
  unfold loadCreds
  rw [hv]
  simp [hvne, truthyOpt, hs, hne]

/-- The load phase never refreshes, never writes, and never starts the
interactive flow. -/
lemma loadCreds_effects (env : SysEnv) (a : String) :
    ∀ e ∈ (loadCreds env a).2,
      e ≠ Effect.refreshCall ∧ e ≠ Effect.interactiveFlow ∧ ∀ p, e ≠ Effect.writeFile p := by
  unfold loadCreds loadFromFile
  repeat' split
  all_goals intro e he
  all_goals simp_all
  all_goals rcases he with he | he | he
  all_goals simp_all

/-- A concrete system environment: no environment tokens, one token file for
the personal account, a parser reading the raw content as the access token,
a refresh that succeeds, and an interactive flow that succeeds. -/
def sysEnvA : SysEnv :=
  { envVars := fun _ => none
    files := fun p => if p = "token_personal.json" then some "file-token" else none
    parse := fun s => { token := some s, expired := false, refresh_token := none }
    refresh := fun c => some { token := some "refreshed", expired := false,
                               refresh_token := c.refresh_token }
    flow := some { token := some "flow-token", expired := false, refresh_token := some "rt" } }

/-- C4: for every account name outside the fixed known set, `get_credentials`
fails with the unknown-account error and performs no I/O at all: the effect
trace is empty, so no environment variable is read, no file is stat'd, read
or written, and no network call (refresh or interactive flow) is made. -/
theorem c4_unknown_account (env : SysEnv) (account : String)
    (h : lookupStr ACCOUNTS account = none) :
    get_credentials env account =
      (CredResult.error (CredError.unknownAccount account), []) := by
  unfold get_credentials
  rw [h]

/-- Witness for C4 at the concrete unknown account name `"business"`. -/
theorem c4_unknown_account_witness :
    lookupStr ACCOUNTS "business" = none
    ∧ get_credentials sysEnvA "business" =
        (CredResult.error (CredError.unknownAccount "business"), []) :=
  ⟨by decide, c4_unknown_account sysEnvA "business" (by decide)⟩

/-- C2: for every known account, a set and non-empty environment token makes
the load return the parsed environment value; the token file is never
stat'd or read, whatever it contains. -/
theorem c2_env_precedence (env : SysEnv) (account v s : String)
    (hv : lookupStr ENV_TOKENS account = some v)
    (hs : env.envVars v = some s) (hne : s ≠ "") :
    loadCreds env account = (some (env.parse s), [Effect.readEnv v])
    ∧ ∀ p, Effect.statFile p ∉ (loadCreds env account).2
        ∧ Effect.readFile p ∉ (loadCreds env account).2 := by
  have h := loadCreds_env hv hs hne
  refine ⟨h, fun p => ?_⟩
  rw [h]
  simp

/-- Environment for the C2 witness: environment token `"A"` for the school
account while the file simultaneously holds `"B"`. -/
def c2env : SysEnv :=
  { envVars := fun n => if n = "GOOGLE_TOKEN_SCHOOL" then some "A" else none
    files := fun _ => some "B"
    parse := fun s => { token := some s, expired := false, refresh_token := none }
    refresh := fun _ => none
    flow := none }

/-- Witness for C2: with env token `"A"` and file token `"B"` (distinct),
the load returns the parse of `"A"`, not of `"B"`. -/
theorem c2_env_precedence_witness :
    loadCreds c2env "school" =
      (some { token := some "A", expired := false, refresh_token := none },
       [Effect.readEnv "GOOGLE_TOKEN_SCHOOL"])
    ∧ (loadCreds c2env "school").1 ≠ some (c2env.parse "B") := by
  have h := c2_env_precedence c2env "school" "GOOGLE_TOKEN_SCHOOL" "A" rfl rfl (by decide)
  exact ⟨h.1, by rw [h.1]; decide⟩

/-- C1: for a known account whose environment variable is set and non-empty,
if the parsed environment token is invalid (`valid = false`) and carries no
refresh token, `get_credentials` raises the deployed-environment error and
the interactive flow is never invoked — whatever the file system holds. -/
theorem c1_deployed_guard (env : SysEnv) (account path v s : String)
    (hacc : lookupStr ACCOUNTS account = some path)
    (hv : lookupStr ENV_TOKENS account = some v)
    (hs : env.envVars v = some s) (hne : s ≠ "")
    (hinvalid : (env.parse s).valid = false)
    (hnorefresh : (env.parse s).refresh_token = none) :
    (get_credentials env account).1 =
      CredResult.error (CredError.tokenUnrecoverable account)
    ∧ Effect.interactiveFlow ∉ (get_credentials env account).2 := by
  unfold get_credentials
  rw [hacc, loadCreds_env hv hs hne, hv]
  simp [hinvalid, hnorefresh, noUsableToken, truthyOpt, hs, hne]

/-- Environment for the C1 witness: the work account's environment variable
is set to an unparseable-as-valid token (no access token, no refresh token)
while a token file also exists. -/
def c1env : SysEnv :=
  { envVars := fun n => if n = "GOOGLE_TOKEN_WORK" then some "envtok" else none
    files := fun _ => some "filetok"
    parse := fun _ => { token := none, expired := false, refresh_token := none }
    refresh := fun _ => none
    flow := some { token := some "flow-token", expired := false, refresh_token := none } }

/-- Witness for C1 at the work account. -/
theorem c1_deployed_guard_witness :
    (get_credentials c1env "work").1 =
      CredResult.error (CredError.tokenUnrecoverable "work")
    ∧ Effect.interactiveFlow ∉ (get_credentials c1env "work").2 :=
  c1_deployed_guard c1env "work" "token_work.json" "GOOGLE_TOKEN_WORK" "envtok"
    (by decide) (by decide) rfl (by decide) rfl rfl

/-- Environment for C3: no environment token, a file token that parses to an
expired credential with a refresh token, and a refresh that succeeds. -/
def c3env : SysEnv :=
  { envVars := fun _ => none
    files := fun p => if p = "token_personal.json" then some "filetoken" else none
    parse := fun _ => { token := some "old-at", expired := true, refresh_token := some "rt" }
    refresh := fun c => some { token := some "new-at", expired := false,
                               refresh_token := c.refresh_token }
    flow := some { token := some "flow-at", expired := false, refresh_token := some "frt" } }

/-- Counterexample for C3: with a present, expired, refreshable token the
refresh succeeds and the credential is returned, but nothing is ever written
back to the token file — the claimed persistence via the save path does not
happen (the only write in the code follows the interactive flow). -/
theorem c3_refresh_counterexample :
    (get_credentials c3env "personal").1 =
      CredResult.ok { token := some "new-at", expired := false, refresh_token := some "rt" }
    ∧ Effect.refreshCall ∈ (get_credentials c3env "personal").2
    ∧ Effect.writeFile "token_personal.json" ∉ (get_credentials c3env "personal").2 := by
  decide

/-- C3 as amended: for a known account whose loaded token is present, expired
and refreshable, `get_credentials` attempts the refresh; on success it
returns the refreshed credential WITHOUT persisting it (no file write); on
failure the refresh error propagates — the deployed-context error and the
interactive flow are not reached. -/
theorem c3_refresh_amended (env : SysEnv) (account path : String) (c : Creds)
    (hacc : lookupStr ACCOUNTS account = some path)
    (hload : (loadCreds env account).1 = some c)
    (hexp : c.expired = true)
    (href : c.refresh_token.isSome = true) :
    Effect.refreshCall ∈ (get_credentials env account).2
    ∧ (∀ c2, env.refresh c = some c2 →
        (get_credentials env account).1 = CredResult.ok c2
        ∧ ∀ p, Effect.writeFile p ∉ (get_credentials env account).2)
    ∧ (env.refresh c = none →
        (get_credentials env account).1 = CredResult.error CredError.refreshError
        ∧ Effect.interactiveFlow ∉ (get_credentials env account).2
        ∧ ∀ a2, (get_credentials env account).1
            ≠ CredResult.error (CredError.tokenUnrecoverable a2)) := by
  have heq : loadCreds env account = (some c, (loadCreds env account).2) := by
    rw [← hload]
  have hvalid : c.valid = false := by simp [Creds.valid, hexp]
  have heffs := loadCreds_effects env account
  have hw : ∀ p, Effect.writeFile p ∉ (loadCreds env account).2 := by
    intro p hmem
    exact ((heffs _ hmem).2.2 p) rfl
  have hi : Effect.interactiveFlow ∉ (loadCreds env account).2 := by
    intro hmem
    exact ((heffs _ hmem).2.1) rfl
  unfold get_credentials
  rw [hacc, heq]
  rcases hr : env.refresh c with _ | c2
  · simp [hvalid, hexp, href, hr]
    exact hi
  · simp [hvalid, hexp, href, hr]
    exact hw

/-- Environment for the failure half of the C3 witness: as `c3env` but the
refresh raises. -/
def c3envFail : SysEnv :=
  { c3env with refresh := fun _ => none }

/-- Witness for the amended C3, exercising both the refresh-success branch
(credential returned, no write) and the refresh-failure branch (the refresh
error propagates, no interactive flow). -/
theorem c3_refresh_amended_witness :
    ((get_credentials c3env "personal").1 =
        CredResult.ok { token := some "new-at", expired := false, refresh_token := some "rt" }
      ∧ Effect.writeFile "token_personal.json" ∉ (get_credentials c3env "personal").2)
    ∧ ((get_credentials c3envFail "personal").1 = CredResult.error CredError.refreshError
      ∧ Effect.interactiveFlow ∉ (get_credentials c3envFail "personal").2) := by
  have h1 := c3_refresh_amended c3env "personal" "token_personal.json"
    { token := some "old-at", expired := true, refresh_token := some "rt" }
    (by decide) (by decide) rfl rfl
  have h2 := c3_refresh_amended c3envFail "personal" "token_personal.json"
    { token := some "old-at", expired := true, refresh_token := some "rt" }
    (by decide) (by decide) rfl rfl
  refine ⟨⟨(h1.2.1 _ rfl).1, (h1.2.1 _ rfl).2 _⟩, ⟨(h2.2.2 rfl).1, (h2.2.2 rfl).2.1⟩⟩

/-- C5: in `calendar_update_event` only explicitly supplied fields overwrite
the existing event; omitted (`none`) fields — and every untouched key — are
left unchanged; for `description` and `location` a supplied value always
overwrites, so `some ""` clears the field to the empty string while `none`
keeps the existing value. -/
theorem c5_partial_update (e : CalendarEvent)
    (summary start end_ description location : Option String) (tz : String) :
    (description = none →
      (calendar_update_event e summary start end_ description location tz).description
        = e.description)
    ∧ (∀ d, description = some d →
      (calendar_update_event e summary start end_ description location tz).description
        = some d)
    ∧ (location = none →
      (calendar_update_event e summary start end_ description location tz).location
        = e.location)
    ∧ (∀ l, location = some l →
      (calendar_update_event e summary start end_ description location tz).location
        = some l)
    ∧ (summary = none →
      (calendar_update_event e summary start end_ description location tz).summary
        = e.summary)
    ∧ (start = none →
      (calendar_update_event e summary start end_ description location tz).start
        = e.start)
    ∧ (end_ = none →
      (calendar_update_event e summary start end_ description location tz).end_
        = e.end_)
    ∧ (calendar_update_event e summary start end_ description location tz).extra
        = e.extra := by
  unfold calendar_update_event
  rcases summary with _ | sm <;> rcases start with _ | st <;>
    rcases end_ with _ | en <;> rcases description with _ | d <;>
    rcases location with _ | l <;>
    simp [truthyOpt] <;> repeat' split
  all_goals simp_all

/-- Existing event used by the calendar witnesses: location `"A"`. -/
def eventA : CalendarEvent :=
  { summary := some "Standup", description := some "daily sync",
    location := some "A",
    start := some { date := none, dateTime := some "2025-01-20T09:00:00", timeZone := some "UTC" },
    end_ := some { date := none, dateTime := some "2025-01-20T09:15:00", timeZone := some "UTC" },
    extra := [("id", "ev1")] }

/-- Witness for C5: updating `eventA` with `location = none` keeps `"A"`,
updating with `location = some ""` clears it to the empty string; the
omitted description stays unchanged in both calls. -/
theorem c5_partial_update_witness :
    (calendar_update_event eventA none none none none none "UTC").location = some "A"
    ∧ (calendar_update_event eventA none none none none (some "") "UTC").location = some ""
    ∧ (calendar_update_event eventA none none none none (some "") "UTC").description
        = eventA.description := by
  have h1 := c5_partial_update eventA none none none none none "UTC"
  have h2 := c5_partial_update eventA none none none none (some "") "UTC"
  exact ⟨h1.2.2.1 rfl, h2.2.2.2.1 "" rfl, h2.1 rfl⟩

/-- C9: in `calendar_update_event` the empty string is NOT distinguishable
from not-supplied for `summary`: `summary = some ""` behaves exactly like
`summary = none` (the whole update result coincides) and the existing
summary is left unchanged. -/
theorem c9_summary_truthiness (e : CalendarEvent)
    (start end_ description location : Option String) (tz : String) :
    calendar_update_event e (some "") start end_ description location tz
      = calendar_update_event e none start end_ description location tz
    ∧ (calendar_update_event e (some "") start end_ description location tz).summary
      = e.summary := by
  constructor
  · rfl
  · unfold calendar_update_event
    rcases start with _ | st <;> rcases end_ with _ | en <;>
      rcases description with _ | d <;> rcases location with _ | l <;>
      simp [truthyOpt] <;> repeat' split
    all_goals simp_all

/-- Counterexample for C6: in `calendar_update_event` an explicitly supplied
empty start string (length 0, so not 10) does NOT produce a dateTime field —
`if start:` treats `""` as not supplied and the start field is left exactly
as it was (here: absent). -/
theorem c6_allday_counterexample :
    (calendar_update_event
        { summary := some "Meeting", description := none, location := none,
          start := none, end_ := none, extra := [] }
        none (some "") none none none "UTC").start = none
    ∧ (calendar_update_event
        { summary := some "Meeting", description := none, location := none,
          start := none, end_ := none, extra := [] }
        none (some "") none none none "UTC").start
      ≠ some (timeField (("" : String).length == 10) "" "UTC") := by
  decide

/-- C6 as amended: in `calendar_create_event` (any start string) and in
`calendar_update_event` (any supplied, non-empty start string) a start of
exactly 10 characters yields a date field and any other length yields a
dateTime field paired with the given timezone; in update an empty or omitted
start leaves the field untouched instead. -/
theorem c6_allday_amended (summary start end_ tz s : String)
    (description location : Option String) (e : CalendarEvent)
    (osummary oend odesc oloc : Option String) :
    (start.length = 10 →
      (calendar_create_event summary start end_ description location tz).start
        = some { date := some start, dateTime := none, timeZone := some tz })
    ∧ (start.length ≠ 10 →
      (calendar_create_event summary start end_ description location tz).start
        = some { date := none, dateTime := some start, timeZone := some tz })
    ∧ (s ≠ "" → s.length = 10 →
      (calendar_update_event e osummary (some s) oend odesc oloc tz).start
        = some { date := some s, dateTime := none, timeZone := some tz })
    ∧ (s ≠ "" → s.length ≠ 10 →
      (calendar_update_event e osummary (some s) oend odesc oloc tz).start
        = some { date := none, dateTime := some s, timeZone := some tz }) := by
  refine ⟨fun h => ?_, fun h => ?_, fun hs h => ?_, fun hs h => ?_⟩
  · unfold calendar_create_event
    rcases description with _ | d <;> rcases location with _ | l <;>
      simp [truthyOpt, timeField, h] <;> repeat' split
    all_goals simp_all
  · unfold calendar_create_event
    rcases description with _ | d <;> rcases location with _ | l <;>
      simp [truthyOpt, timeField, h] <;> repeat' split
    all_goals simp_all
  · unfold calendar_update_event
    rcases osummary with _ | sm <;> rcases oend with _ | en <;>
      rcases odesc with _ | d <;> rcases oloc with _ | l <;>
      simp [truthyOpt, timeField, hs, h] <;> repeat' split
    all_goals simp_all
  · unfold calendar_update_event
    rcases osummary with _ | sm <;> rcases oend with _ | en <;>
      rcases odesc with _ | d <;> rcases oloc with _ | l <;>
      simp [truthyOpt, timeField, hs, h] <;> repeat' split
    all_goals simp_all

/-- Witness for the amended C6: `"2025-01-20"` yields a date field,
`"2025-01-20T10:00:00"` yields a dateTime field with the timezone, in both
create and update. -/
theorem c6_allday_amended_witness :
    (calendar_create_event "S" "2025-01-20" "2025-01-21" none none "UTC").start
      = some { date := some "2025-01-20", dateTime := none, timeZone := some "UTC" }
    ∧ (calendar_create_event "S" "2025-01-20T10:00:00" "2025-01-20T11:00:00"
        none none "UTC").start
      = some { date := none, dateTime := some "2025-01-20T10:00:00", timeZone := some "UTC" }
    ∧ (calendar_update_event eventA none (some "2025-01-20") none none none "UTC").start
      = some { date := some "2025-01-20", dateTime := none, timeZone := some "UTC" }
    ∧ (calendar_update_event eventA none (some "2025-01-20T10:00:00") none none none
        "UTC").start
      = some { date := none, dateTime := some "2025-01-20T10:00:00", timeZone := some "UTC" } := by
  have h1 := c6_allday_amended "S" "2025-01-20" "2025-01-21" "UTC" "2025-01-20"
    none none eventA none none none none
  have h2 := c6_allday_amended "S" "2025-01-20T10:00:00" "2025-01-20T11:00:00" "UTC"
    "2025-01-20T10:00:00" none none eventA none none none none
  exact ⟨h1.1 (by decide), h2.2.1 (by decide), h1.2.2.1 (by decide) (by decide),
         h2.2.2.2 (by decide) (by decide)⟩

/-- C10: in `calendar_create_event` the all-day decision is made once, from
the length of the start string alone, and applied to both the start and the
end field: whatever the end string looks like, a 10-character start puts the
end value in a date field and any other start length puts it in a dateTime
field. -/
theorem c10_end_follows_start (summary start end_ tz : String)
    (description location : Option String) :
    (start.length = 10 →
      (calendar_create_event summary start end_ description location tz).start
        = some { date := some start, dateTime := none, timeZone := some tz }
      ∧ (calendar_create_event summary start end_ description location tz).end_
        = some { date := some end_, dateTime := none, timeZone := some tz })
    ∧ (start.length ≠ 10 →
      (calendar_create_event summary start end_ description location tz).start
        = some { date := none, dateTime := some start, timeZone := some tz }
      ∧ (calendar_create_event summary start end_ description location tz).end_
        = some { date := none, dateTime := some end_, timeZone := some tz }) := by
  refine ⟨fun h => ?_, fun h => ?_⟩
  all_goals unfold calendar_create_event
  all_goals rcases description with _ | d <;> rcases location with _ | l <;>
    simp [truthyOpt, timeField, h] <;> repeat' split
  all_goals simp_all

/-- Witness for C10 at the claim's concrete input: a 10-character start with
a timestamp-shaped end still lands the end value in a date-only field. -/
theorem c10_end_follows_start_witness :
    (calendar_create_event "S" "2025-01-20" "2025-01-20T10:00:00" none none "UTC").end_
      = some { date := some "2025-01-20T10:00:00", dateTime := none, timeZone := some "UTC" } :=
  (c10_end_follows_start "S" "2025-01-20" "2025-01-20T10:00:00" "UTC" none none).1
    (by decide) |>.2

/-- Length of a packed character list. -/
lemma strMk_length (l : List Char) : (String.mk l).length = l.length := rfl

/-- A string's length is the length of its character data. -/
lemma str_length_data (s : String) : s.length = s.data.length := rfl

/-- The Python slice `s[:n]` has length `min n (len s)`. -/
lemma pySlice_length (s : String) (n : Nat) : (pySlice s n).length = min n s.length := by
  rw [pySlice, strMk_length, List.length_take, str_length_data]

/-- The Python slice `s[:n]` returns `s` unchanged when `len s ≤ n`. -/
lemma pySlice_of_le (s : String) (n : Nat) (h : s.length ≤ n) : pySlice s n = s := by
  unfold pySlice
  rw [List.take_of_length_le h]

/-- The part-scan loop returns the decode of the FIRST part whose MIME type
is `text/plain` and which carries truthy data, and `""` when there is no
such part. -/
lemma extractFromParts_eq_find (dec : String → String) (ps : List MsgPart) :
    extractFromParts dec ps =
      (match ps.find?
          (fun p => p.mimeType == some "text/plain" && (truthyData p.body).isSome) with
       | some p => dec ((truthyData p.body).getD "")
       | none => "") := by
  induction ps with
  | nil => rfl
  | cons p ps ih =>
    unfold extractFromParts
    by_cases hm : p.mimeType = some "text/plain"
    · rcases hd : truthyData p.body with _ | d
      · simp [List.find?_cons, hm, hd, ih]
      · simp [List.find?_cons, hm, hd]
    · simp [List.find?_cons, hm, ih]

/-- C7: in `gmail_read_thread` the body comes from the direct payload body
when it carries (truthy) data, otherwise from the first `text/plain` part
carrying data, decoded by the transport decoding `dec`; the emitted body is
the 5000-character truncation: its length never exceeds 5000, a
6000-character body is cut to exactly 5000 and a 100-character body is
returned unmodified. -/
theorem c7_body_extraction (dec : String → String) (payload : MsgPayload) :
    (∀ d, truthyData payload.body = some d → extractBody dec payload = dec d)
    ∧ (∀ ps, truthyData payload.body = none → payload.parts = some ps →
        extractBody dec payload =
          (match ps.find?
              (fun p => p.mimeType == some "text/plain" && (truthyData p.body).isSome) with
           | some p => dec ((truthyData p.body).getD "")
           | none => ""))
    ∧ messageBody dec payload = pySlice (extractBody dec payload) 5000
    ∧ (messageBody dec payload).length ≤ 5000
    ∧ ((extractBody dec payload).length = 6000 → (messageBody dec payload).length = 5000)
    ∧ ((extractBody dec payload).length = 100 →
        messageBody dec payload = extractBody dec payload) := by
  refine ⟨fun d hd => ?_, fun ps h0 hp => ?_, rfl, ?_, fun h => ?_, fun h => ?_⟩
  · unfold extractBody
    rw [hd]
  · unfold extractBody
    rw [h0, hp]
    exact extractFromParts_eq_find dec ps
  · rw [messageBody, pySlice_length]
    omega
  · rw [messageBody, pySlice_length, h]
    omega
  · exact pySlice_of_le _ _ (by omega)

/-- Payload for the C7 witness: no direct body, one `text/plain` part. -/
def c7payload : MsgPayload :=
  { body := none,
    parts := some [{ mimeType := some "text/plain", body := some { data := some "ZGF0YQ" } }],
    headers := none }

/-- Transport decoding for the C7 witness: produces a 6000-character body. -/
def c7dec : String → String := fun _ => ⟨List.replicate 6000 'a'⟩

/-- Witness for C7: the part's data is decoded and the 6000-character decoded
body is truncated to exactly 5000 characters. -/
theorem c7_body_extraction_witness :
    extractBody c7dec c7payload = c7dec "ZGF0YQ"
    ∧ (messageBody c7dec c7payload).length = 5000 := by
  have h := c7_body_extraction c7dec c7payload
  have hbody : extractBody c7dec c7payload = c7dec "ZGF0YQ" := by
    rw [h.2.1 _ rfl rfl]
    rfl
  refine ⟨hbody, h.2.2.2.2.1 ?_⟩
  rw [hbody]
  show (String.mk (List.replicate 6000 'a')).length = 6000
  rw [strMk_length, List.length_replicate]

/-- A non-empty pretty-printed JSON array is never the sentinel string: it
starts with an opening bracket. -/
lemma dumpObjList_ne_sentinel (x : List (String × String))
    (xs : List (List (String × String))) :
    dumpObjList (x :: xs) ≠ "No messages found." := by
  intro h
  have h1 : (dumpObjList (x :: xs)).data.head? = some '[' := rfl
  rw [h] at h1
  exact absurd h1 (by decide)

/-- C8: `gmail_search` returns the plain sentinel `"No messages found."` as a
normal value exactly when the service response holds no messages, and for a
non-empty result it returns the pretty-printed JSON encoding of the output
records, which is never the sentinel. -/
theorem c8_search_sentinel (listResp : Option (List MsgRef)) (detail : String → MsgDetail) :
    (listResp.getD [] = [] → gmail_search listResp detail = "No messages found.")
    ∧ (listResp.getD [] ≠ [] →
        gmail_search listResp detail
          = dumpObjList ((listResp.getD []).map (searchEntry detail))
        ∧ gmail_search listResp detail ≠ "No messages found.") := by
  constructor
  · intro h
    unfold gmail_search
    rw [h]
    rfl
  · intro h
    rcases hm : listResp.getD [] with _ | ⟨m, ms⟩
    · exact absurd hm h
    · unfold gmail_search
      rw [hm]
      exact ⟨by simp, by simp [dumpObjList_ne_sentinel]⟩

/-- Per-id metadata for the C8 witness. -/
def c8detail : String → MsgDetail := fun _ =>
  { payloadHeaders := some [("From", "alice@example.com"), ("Subject", "Hi"), ("Date", "Mon")],
    snippet := some "hello" }

/-- Witness for C8: an empty `messages` list yields the sentinel; a one-element
list yields a JSON string different from the sentinel. -/
theorem c8_search_sentinel_witness :
    gmail_search (some []) c8detail = "No messages found."
    ∧ gmail_search (some [{ id := "m1", threadId := "t1" }]) c8detail
        ≠ "No messages found." := by
  have h1 := c8_search_sentinel (some []) c8detail
  have h2 := c8_search_sentinel (some [{ id := "m1", threadId := "t1" }]) c8detail
  exact ⟨h1.1 rfl, (h2.2 (by decide)).2⟩
